import Mathlib

/-!
Shallow embedding of the Retro-EvaraFlow image capture service
(`main_service.py`, `src/capture.py`, `src/roi_extractor.py`,
`src/rclone_uploader.py`, `src/thingspeak_reporter.py`, `config.py`)
together with theorems settling the behavioural claims about it.

External effects (camera, GPIO, subprocesses, HTTP, filesystem) are
modelled by explicit environment records carrying the outcome each
external call would produce; the control flow of every embedded
function follows the Python source line by line.
-/

namespace EvaraFlow

/-! ## Configuration constants (`config.py`, `main_service.py`) -/

/-- `config.THINGSPEAK_STATUS_ARUCO_SUCCESS` (config.py line 72). -/
def THINGSPEAK_STATUS_ARUCO_SUCCESS : ℕ := 1

/-- `config.THINGSPEAK_STATUS_NO_ARUCO` (config.py line 73). -/
def THINGSPEAK_STATUS_NO_ARUCO : ℕ := 0

/-- `config.THINGSPEAK_STATUS_ERROR` (config.py line 74). -/
def THINGSPEAK_STATUS_ERROR : ℕ := 2

/-- `MIN_FREE_DISK_MB` (main_service.py line 53), in megabytes. -/
def MIN_FREE_DISK_MB : ℚ := 50

/-- `MAX_BACKLOG_SIZE` (main_service.py line 56). -/
def MAX_BACKLOG_SIZE : ℕ := 20

/-- `config.ROI_PADDING_PERCENT` (config.py line 45). -/
def ROI_PADDING_PERCENT : ℕ := 10

/-! ## Bounded deque (`collections.deque(maxlen=N)`)

`upload_backlog = deque(maxlen=MAX_BACKLOG_SIZE)` (main_service.py
line 153).  The model reproduces the documented CPython semantics of
`deque.append` under a `maxlen` bound: once the deque is full, a new
item discards the item at the opposite (left) end. -/

structure BDeque (α : Type) where
  maxlen : ℕ
  items : List α

/-- `deque.append(a)`: when the deque already holds `maxlen` items the
oldest (leftmost) item is discarded; a deque with `maxlen = 0` stays
empty. -/
def BDeque.push {α : Type} (b : BDeque α) (a : α) : BDeque α :=
  if b.maxlen = 0 then b
  else if b.maxlen ≤ b.items.length then { b with items := b.items.tail ++ [a] }
  else { b with items := b.items ++ [a] }

/-- The deque never holds more than `maxlen` items. -/
def BDeque.wf {α : Type} (b : BDeque α) : Prop :=
  b.items.length ≤ b.maxlen

/-- Entries of `self.upload_backlog` (main_service.py lines 377-382):
`{'filepath': ..., 'aruco_detected': ..., 'retries': 0, 'timestamp': ...}`. -/
structure BacklogEntry where
  filepath : String
  aruco_detected : Bool
  retries : ℕ
  timestamp : String

/-- The backlog as created in `__init__`: `deque(maxlen=MAX_BACKLOG_SIZE)`. -/
def initial_backlog : BDeque BacklogEntry := ⟨MAX_BACKLOG_SIZE, []⟩

/-! ## Disk-space check (`ImageCaptureService._check_disk_space`) -/

/-- `usage.free / (1024 * 1024)` (main_service.py line 178). -/
def free_mb (free_bytes : ℕ) : ℚ := (free_bytes : ℚ) / (1024 * 1024)

/-- `_check_disk_space` (main_service.py lines 174-196).  `raises`
models `shutil.disk_usage` raising: the `except` arm returns `True`
("Continue if check fails").  Otherwise the measured free space is
compared against `MIN_FREE_DISK_MB`. -/
def check_disk_space (raises : Bool) (free_bytes : ℕ) : Bool :=
  if raises then true
  else if free_mb free_bytes < MIN_FREE_DISK_MB then false
  else true

/-! ## One orchestrator cycle (`ImageCaptureService.process_cycle`) -/

/-- Outcomes of the external calls made during one cycle
(main_service.py lines 257-401).  `capture_result`/`roi_result` carry
abstract image identifiers (`none` = capture returned `None`, resp.
`extract_roi` returned `None`); `save_raises` models `cv2.imwrite` or
`stat` raising, which lands in the outer `except` handler. -/
structure CycleEnv where
  disk_raises : Bool
  disk_free_bytes : ℕ
  capture_result : Option ℕ
  roi_result : Option ℕ
  save_raises : Bool
  drive_success : Bool

/-- What one cycle produced: the boolean returned by `process_cycle`,
the status code handed to `_send_thingspeak_status`, the backlog
afterwards, and whether step 1 (capture) was reached. -/
structure CycleResult where
  success : Bool
  status : ℕ
  backlog : BDeque BacklogEntry
  capture_attempted : Bool

/-- `process_cycle` (main_service.py lines 257-401).  `filepath` and
`timestamp` are the saved file path `{device_id}_{timestamp}.jpg` and
the cycle timestamp string. -/
def process_cycle (env : CycleEnv) (filepath timestamp : String)
    (backlog : BDeque BacklogEntry) : CycleResult :=
  if check_disk_space env.disk_raises env.disk_free_bytes = false then
    { success := false, status := THINGSPEAK_STATUS_ERROR,
      backlog := backlog, capture_attempted := false }
  else
    match env.capture_result with
    | none =>
      { success := false, status := THINGSPEAK_STATUS_ERROR,
        backlog := backlog, capture_attempted := true }
    | some _ =>
      let aruco_detected := env.roi_result.isSome
      if env.save_raises then
        { success := false, status := THINGSPEAK_STATUS_ERROR,
          backlog := backlog, capture_attempted := true }
      else if env.drive_success then
        { success := true,
          status := if aruco_detected then THINGSPEAK_STATUS_ARUCO_SUCCESS
                    else THINGSPEAK_STATUS_NO_ARUCO,
          backlog := backlog, capture_attempted := true }
      else
        { success := false, status := THINGSPEAK_STATUS_ERROR,
          backlog := backlog.push
            { filepath := filepath, aruco_detected := aruco_detected,
              retries := 0, timestamp := timestamp },
          capture_attempted := true }

/-- `_retry_backlog` (main_service.py lines 226-255): pop every entry;
entries whose file vanished are dropped; entries that upload are done;
the remaining failures get `retries + 1` and are re-appended while
`retries <= 2`. -/
def retry_backlog (b : BDeque BacklogEntry)
    (file_exists upload_ok : BacklogEntry → Bool) : BDeque BacklogEntry :=
  let retried := b.items.filter (fun e => file_exists e && !(upload_ok e))
  let bumped := retried.map (fun e => { e with retries := e.retries + 1 })
  let requeued := bumped.filter (fun e => e.retries ≤ 2)
  List.foldl BDeque.push { b with items := [] } requeued

/-! ## Image retention (`ImageCaptureService._cleanup_old_images`) -/

/-- `_cleanup_old_images` (main_service.py lines 459-473).  `images` is
the directory listing sorted by modification time descending;
`backlog_files` is `{item['filepath'] for item in self.upload_backlog}`.
Files past the newest `keep_count` are deleted unless referenced by the
backlog; the returned list is what remains on disk. -/
def cleanup_old_images (images : List String) (backlog_files : List String)
    (keep_count : ℕ) : List String :=
  if keep_count < images.length then
    images.take keep_count
      ++ (images.drop keep_count).filter (fun p => backlog_files.contains p)
  else images

/-! ## Acquisition controller (`src/capture.py`) -/

/-- State of the LED/relay output line. -/
inductive Line where
  | low
  | high
deriving DecidableEq

/-- GPIO module state: the output line and the global
`GPIO_INITIALIZED` flag (capture.py line 38). -/
structure GpioState where
  line : Line
  initialized : Bool
deriving DecidableEq

/-- `_init_gpio` (capture.py lines 54-64): on first use configure the
pin and drive it LOW; afterwards a no-op. -/
def init_gpio (s : GpioState) : GpioState :=
  if s.initialized then s else { line := Line.low, initialized := true }

/-- Effect of step `k` of one capture attempt on the line
(capture.py lines 190-215): step 0 = `_led_on` (HIGH), steps 1-4 =
warm-up sleep, backend capture, validation, post-capture sleep (no
line effect), step 5 = `_led_off` (LOW). -/
def step_effect (k : ℕ) (l : Line) : Line :=
  if k = 0 then Line.high else if k = 5 then Line.low else l

/-- Line state after the effects of steps `0, …, upTo - 1` ran. -/
def run_steps (l : Line) : ℕ → Line
  | 0 => l
  | k + 1 => step_effect k (run_steps l k)

/-- One attempt of the `for attempt in range(max_retries)` body.
`raise_at = none`: all six steps complete and the attempt returns the
image.  `raise_at = some k`: step `k` raises after the effects of the
earlier steps; the `except` handler runs `_led_off()` (capture.py
line 218), forcing the line LOW whatever the partial progress was. -/
def run_attempt (s : GpioState) (raise_at : Option ℕ) : GpioState × Bool :=
  match raise_at with
  | none => ({ s with line := run_steps s.line 6 }, true)
  | some _ => ({ s with line := Line.low }, false)

/-- The attempt loop of `capture_image`: attempt indices
`start, start+1, …` with `remaining` attempts left; a successful
attempt returns immediately, exhausting the loop returns `None`
(modelled as `false`). -/
def capture_attempts (s : GpioState) (env : ℕ → Option ℕ) :
    ℕ → ℕ → GpioState × Bool
  | _, 0 => (s, false)
  | start, n + 1 =>
    let r := run_attempt s (env start)
    if r.2 then r else capture_attempts r.1 env (start + 1) n

/-- `capture_image` (capture.py lines 147-226): `_init_gpio()` then the
attempt loop.  `env i` says whether attempt `i` raises and at which
step. -/
def capture_image (s : GpioState) (max_retries : ℕ) (env : ℕ → Option ℕ) :
    GpioState × Bool :=
  capture_attempts (init_gpio s) env 0 max_retries

/-! ## Delivery agent (`src/rclone_uploader.py`) -/

/-- `RcloneUploader.MAX_RETRIES` (rclone_uploader.py line 27). -/
def RCLONE_MAX_RETRIES : ℕ := 3

/-- `RcloneUploader.RETRY_DELAYS` (rclone_uploader.py line 28). -/
def RCLONE_RETRY_DELAYS : List ℕ := [2, 5, 10]

/-- `self.RETRY_DELAYS[attempt]`. -/
def retry_delay (i : ℕ) : ℕ := RCLONE_RETRY_DELAYS.getD i 0

/-- Outcome of one iteration of the retry loop of
`upload_with_verification`: the `rclone copy` subprocess failed
(`_upload_single` returned `False`), the copy succeeded but the
`rclone lsf` verification failed, both succeeded, or an unexpected
exception reached the outer `except` arm (lines 157-160) after the
transfer subprocess had been spawned. -/
inductive AttemptOutcome where
  | upload_fail
  | verify_fail
  | ok
  | exn
deriving DecidableEq

/-- Observable events of `upload_with_verification`: spawning the
`rclone copy` transfer subprocess, spawning the `rclone lsf`
verification subprocess, and `time.sleep(d)`. -/
inductive UploadEvent where
  | spawn_transfer
  | spawn_list
  | sleep (d : ℕ)
deriving DecidableEq

/-- External state consulted by `upload_with_verification`:
`self.is_configured` (from `_validate_setup`), the `folder_id`
argument, whether `os.path.exists(local_path)` holds, and the outcome
of each retry-loop iteration. -/
structure UploadEnv where
  is_configured : Bool
  folder_id : String
  file_exists : Bool
  outcomes : ℕ → AttemptOutcome

/-- `if not folder_id or folder_id == 'nan' or folder_id == ''`
(rclone_uploader.py line 115). -/
def folder_id_bad (fid : String) : Bool := fid = "" || fid = "nan"

/-- The `for attempt in range(self.MAX_RETRIES)` loop (rclone_uploader.py
lines 126-162): attempt index `i`, `r + 1` iterations remaining.  On a
non-final failed iteration the loop sleeps `RETRY_DELAYS[i]` and
continues; the final failed iteration returns `False` with no sleep. -/
def upload_loop (out : ℕ → AttemptOutcome) : ℕ → ℕ → Bool × List UploadEvent
  | _, 0 => (false, [])
  | i, r + 1 =>
    match out i with
    | .ok => (true, [.spawn_transfer, .spawn_list])
    | .upload_fail =>
      if r = 0 then (false, [.spawn_transfer])
      else
        let rest := upload_loop out (i + 1) r
        (rest.1, .spawn_transfer :: .sleep (retry_delay i) :: rest.2)
    | .verify_fail =>
      if r = 0 then (false, [.spawn_transfer, .spawn_list])
      else
        let rest := upload_loop out (i + 1) r
        (rest.1, .spawn_transfer :: .spawn_list :: .sleep (retry_delay i) :: rest.2)
    | .exn =>
      if r = 0 then (false, [.spawn_transfer])
      else
        let rest := upload_loop out (i + 1) r
        (rest.1, .spawn_transfer :: .sleep (retry_delay i) :: rest.2)

/-- `upload_with_verification` (rclone_uploader.py lines 100-162):
three fail-fast guards, then the retry loop.  Returns the boolean
result and the ordered list of subprocess/sleep events. -/
def upload_with_verification (env : UploadEnv) : Bool × List UploadEvent :=
  if env.is_configured = false then (false, [])
  else if folder_id_bad env.folder_id then (false, [])
  else if env.file_exists = false then (false, [])
  else upload_loop env.outcomes 0 RCLONE_MAX_RETRIES

/-- Transfer subprocesses spawned during a call. -/
def transfer_count (evs : List UploadEvent) : ℕ :=
  (evs.filter (fun e => e = UploadEvent.spawn_transfer)).length

/-- The sleep durations of a call, in order. -/
def sleep_durations (evs : List UploadEvent) : List ℕ :=
  evs.filterMap (fun e => match e with | UploadEvent.sleep d => some d | _ => none)

/-! ## Status reporter (`src/thingspeak_reporter.py`) -/

/-- `ThingSpeakReporter.RETRY_DELAY` (thingspeak_reporter.py line 32). -/
def TS_RETRY_DELAY : ℚ := 3

/-- `ThingSpeakReporter.MIN_UPDATE_INTERVAL` (thingspeak_reporter.py
line 35). -/
def TS_MIN_UPDATE_INTERVAL : ℚ := 16

/-- Outcome of one `requests.get` to the update endpoint: HTTP 200 with
entry id ≠ "0" (accepted), HTTP 200 with body "0" (rejected), another
HTTP status, or an exception from `requests.get` itself
(`Timeout`/`ConnectionError`/other). -/
inductive TSOutcome where
  | accepted
  | rejected
  | http_error
  | transport_exn
deriving DecidableEq

/-- One attempt: how long the request took from start to
completion/exception, and its outcome. -/
structure TSAttempt where
  duration : ℚ
  outcome : TSOutcome

/-- Reporter-relevant state: the current wall clock and
`self._last_update_time`. -/
structure TSState where
  now : ℚ
  last_update : ℚ

/-- One iteration of the `for attempt in range(self.MAX_RETRIES)` body
(thingspeak_reporter.py lines 85-129): the request starts at `s.now`
and finishes `a.duration` later; when `requests.get` returns (even
rejected / non-200), `self._last_update_time = time.time()` (line 93);
when it raises, `_last_update_time` is left unchanged.  Returns the
state afterwards, whether the attempt returned `True`, and the request
start time. -/
def ts_attempt (s : TSState) (a : TSAttempt) : TSState × Bool × ℚ :=
  let start := s.now
  let fin := s.now + a.duration
  match a.outcome with
  | .accepted => (⟨fin, fin⟩, true, start)
  | .rejected => (⟨fin, fin⟩, false, start)
  | .http_error => (⟨fin, fin⟩, false, start)
  | .transport_exn => (⟨fin, s.last_update⟩, false, start)

/-- `send_status` (thingspeak_reporter.py lines 54-132): wait out the
rate limit relative to `_last_update_time`, then up to
`MAX_RETRIES = 2` attempts with a `RETRY_DELAY` sleep between them.
Returns the final state, the boolean result, and the list of request
start times. -/
def send_status (s : TSState) (att : ℕ → TSAttempt) :
    TSState × Bool × List ℚ :=
  let elapsed := s.now - s.last_update
  let s0 : TSState :=
    if elapsed < TS_MIN_UPDATE_INTERVAL then
      ⟨s.now + (TS_MIN_UPDATE_INTERVAL - elapsed), s.last_update⟩
    else s
  let r0 := ts_attempt s0 (att 0)
  if r0.2.1 then (r0.1, true, [r0.2.2])
  else
    let s1 : TSState := ⟨r0.1.now + TS_RETRY_DELAY, r0.1.last_update⟩
    let r1 := ts_attempt s1 (att 1)
    (r1.1, r1.2.1, [r0.2.2, r1.2.2])

/-! ## Cycle scheduling (`ImageCaptureService.run`) -/

/-- Start times of the service loop cycles (main_service.py lines
413-445): each iteration does its work (taking `dur n` seconds) and
then executes `time.sleep(self.capture_interval)`, so the next cycle
starts `dur n + interval` after the previous one. -/
def cycle_start (t0 interval : ℚ) (dur : ℕ → ℚ) : ℕ → ℚ
  | 0 => t0
  | n + 1 => cycle_start t0 interval dur n + dur n + interval

/-! ## Region extractor (`src/roi_extractor.py`) -/

/-- Python `int()` applied to a float: truncation toward zero. -/
def pyInt (q : ℚ) : ℤ := if q < 0 then q.ceil else q.floor

/-- A detected ArUco marker: its id and its corner points
(`marker_corner[0]`, a list of image coordinates). -/
structure Marker where
  mid : ℕ
  corners : List (ℚ × ℚ)

/-- Marker centre `(int(c[:, 0].mean()), int(c[:, 1].mean()))`
(roi_extractor.py lines 91-92). -/
def centroid (corners : List (ℚ × ℚ)) : ℤ × ℤ :=
  let n : ℚ := corners.length
  (pyInt ((corners.map Prod.fst).sum / n), pyInt ((corners.map Prod.snd).sum / n))

/-- `found_markers[marker_id] = [center_x, center_y]` builds a dict in
which a later marker with the same id overwrites an earlier one, so a
lookup finds the centroid of the LAST marker carrying the id. -/
def find_marker (ms : List Marker) (i : ℕ) : Option (ℤ × ℤ) :=
  match ms with
  | [] => none
  | m :: rest =>
    match find_marker rest i with
    | some c => some c
    | none => if m.mid = i then some (centroid m.corners) else none

/-- `padding_percent = config.ROI_PADDING_PERCENT / 100.0`
(roi_extractor.py line 122; the `except` fallback 0.1 is the same
value). -/
def padding_percent : ℚ := (ROI_PADDING_PERCENT : ℚ) / 100

def max4 (a b c d : ℤ) : ℤ := max (max (max a b) c) d

def min4 (a b c d : ℤ) : ℤ := min (min (min a b) c) d

/-- The geometry computed once all four markers are found: the
destination points of the perspective transform and the warp output
size. -/
structure RoiGeometry where
  pts_dst : List (ℤ × ℤ)
  output_width : ℤ
  output_height : ℤ
deriving DecidableEq

/-- Lines 112-141 of roi_extractor.py: bounding box of the four
centroids, padding, `pts_dst`, and the warp output size
`(roi_width + 2 * padding_w, roi_height + 2 * padding_h)`.  The
perspective matrix maps `pts_source[i]` to `pts_dst[i]` exactly, so
`pts_dst` records where each source centroid lands in warp output
coordinates. -/
def roi_geometry (tl tr br bl : ℤ × ℤ) : RoiGeometry :=
  let roi_width := max4 tl.1 tr.1 br.1 bl.1 - min4 tl.1 tr.1 br.1 bl.1
  let roi_height := max4 tl.2 tr.2 br.2 bl.2 - min4 tl.2 tr.2 br.2 bl.2
  let padding_w := pyInt ((roi_width : ℚ) * padding_percent)
  let padding_h := pyInt ((roi_height : ℚ) * padding_percent)
  { pts_dst := [(-padding_w, -padding_h),
                (roi_width + padding_w, -padding_h),
                (roi_width + padding_w, roi_height + padding_h),
                (-padding_w, roi_height + padding_h)],
    output_width := roi_width + 2 * padding_w,
    output_height := roi_height + 2 * padding_h }

/-- Modelled from the spec: the destination corners that would place
the four marker centroids symmetrically inset by the padding inside a
`(roi_width + 2 * padding_w) × (roi_height + 2 * padding_h)` output
image, in TL, TR, BR, BL order. -/
def spec_inset_pts_dst (roi_width roi_height padding_w padding_h : ℤ) :
    List (ℤ × ℤ) :=
  [(padding_w, padding_h),
   (roi_width + padding_w, padding_h),
   (roi_width + padding_w, roi_height + padding_h),
   (padding_w, roi_height + padding_h)]

/-- The input image: its numpy element count (`image.size`). -/
structure InputImage where
  size : ℕ

/-- What the detection stage produced: `raised` models the detection
call (or anything else inside the `try`) raising, `found ms` the
detected marker list (`ids is None` behaves like `found []`, as both
fail the `len < 4` check). -/
inductive Detection where
  | raised
  | found (ms : List Marker)

/-- The tagged result of `extract_roi`: an extracted, perspective
corrected sub-image (carrying its geometry) or the fallback (`None` in
Python, telling the caller to use the full image). -/
inductive ExtractionOutcome where
  | Extracted (g : RoiGeometry)
  | Fallback
deriving DecidableEq

/-- `extract_roi` (roi_extractor.py lines 25-151): invalid image →
`None`; detection raised → caught, `None`; fewer than four markers →
`None`; a required id (marker_map TL=1, TR=3, BR=0, BL=2) missing →
`None`; otherwise the warp geometry is computed and the warped image
returned. -/
def extract_roi (img : Option InputImage) (det : Detection) :
    ExtractionOutcome :=
  match img with
  | none => ExtractionOutcome.Fallback
  | some im =>
    if im.size = 0 then ExtractionOutcome.Fallback
    else
      match det with
      | Detection.raised => ExtractionOutcome.Fallback
      | Detection.found ms =>
        if ms.length < 4 then ExtractionOutcome.Fallback
        else
          match find_marker ms 1, find_marker ms 3,
                find_marker ms 0, find_marker ms 2 with
          | some tl, some tr, some br, some bl =>
            ExtractionOutcome.Extracted (roi_geometry tl tr br bl)
          | _, _, _, _ => ExtractionOutcome.Fallback

/-! ## Orchestrator operations touching the backlog -/

/-- The three operations of the service loop that touch
`self.upload_backlog`: the enqueue on a failed delivery, the drain at
cycle start (`_retry_backlog`), and a whole `process_cycle`. -/
inductive BacklogOp where
  | enqueue (e : BacklogEntry)
  | drain (file_exists upload_ok : BacklogEntry → Bool)
  | cycle (env : CycleEnv) (fp ts : String)

/-- Apply one orchestrator operation to the backlog. -/
def apply_op (b : BDeque BacklogEntry) : BacklogOp → BDeque BacklogEntry
  | BacklogOp.enqueue e => b.push e
  | BacklogOp.drain fe uo => retry_backlog b fe uo
  | BacklogOp.cycle env fp ts => (process_cycle env fp ts b).backlog

/-! # Theorems -/

/-! ## Shared lemmas -/

/-- `BDeque.push` preserves the capacity bound. -/
theorem BDeque.push_wf {α : Type} (b : BDeque α) (a : α) (h : b.wf) :
    (b.push a).wf := by
  unfold BDeque.push BDeque.wf at *
  split_ifs with h0 h1
  · exact h
  · have ht : b.items.tail.length = b.items.length - 1 := List.length_tail b.items
    simp only [List.length_append, List.length_cons, List.length_nil, ht]
    omega
  · simp only [List.length_append, List.length_cons, List.length_nil]
    omega

/-- Folding `BDeque.push` over any list preserves the capacity bound. -/
theorem BDeque.foldl_push_wf {α : Type} (l : List α) (b : BDeque α)
    (h : b.wf) : (List.foldl BDeque.push b l).wf := by
  induction l generalizing b with
  | nil => simpa using h
  | cons x xs ih => exact ih _ (BDeque.push_wf b x h)

/-- `retry_backlog` preserves the capacity bound. -/
theorem retry_backlog_wf (b : BDeque BacklogEntry)
    (fe uo : BacklogEntry → Bool) : (retry_backlog b fe uo).wf := by
  unfold retry_backlog
  exact BDeque.foldl_push_wf _ _ (by simp [BDeque.wf])

/-- `process_cycle` preserves the capacity bound of the backlog. -/
theorem process_cycle_wf (env : CycleEnv) (fp ts : String)
    (b : BDeque BacklogEntry) (h : b.wf) :
    (process_cycle env fp ts b).backlog.wf := by
  rcases env with ⟨dr, db, cr, rr, sr, ds⟩
  cases cr <;> unfold process_cycle <;> dsimp only <;>
    split_ifs <;> first | exact h | exact BDeque.push_wf _ _ h

/-! ## C1 — status codes and backlog enqueue per cycle -/

/-- C1: in every cycle that reaches the delivery step, a successful
delivery reports status 1 when the extraction outcome was Extracted
(`roi_result` is some) and status 0 when it was Fallback, leaving the
backlog unchanged; a failed delivery reports status 2 and enqueues
exactly one `BacklogEntry` referencing the saved file. -/
theorem c1_status_codes (env : CycleEnv) (fp ts : String)
    (b : BDeque BacklogEntry)
    (hdisk : check_disk_space env.disk_raises env.disk_free_bytes = true)
    (hcap : env.capture_result.isSome = true)
    (hsave : env.save_raises = false) :
    (env.drive_success = true →
       (process_cycle env fp ts b).status =
         (if env.roi_result.isSome then THINGSPEAK_STATUS_ARUCO_SUCCESS
          else THINGSPEAK_STATUS_NO_ARUCO) ∧
       (process_cycle env fp ts b).backlog = b) ∧
    (env.drive_success = false →
       (process_cycle env fp ts b).status = THINGSPEAK_STATUS_ERROR ∧
       (process_cycle env fp ts b).backlog =
         b.push { filepath := fp, aruco_detected := env.roi_result.isSome,
                  retries := 0, timestamp := ts }) := by
  obtain ⟨img, himg⟩ := Option.isSome_iff_exists.mp hcap
  constructor <;> intro hdrive <;>
    simp [process_cycle, hdisk, himg, hsave, hdrive]

/-- Witness for C1 at a concrete successful cycle. -/
theorem c1_status_codes_witness :
    (process_cycle
        { disk_raises := false, disk_free_bytes := 104857600,
          capture_result := some 0, roi_result := some 1,
          save_raises := false, drive_success := true }
        "d_t.jpg" "t" initial_backlog).status
      = THINGSPEAK_STATUS_ARUCO_SUCCESS := by
  have h := (c1_status_codes
    { disk_raises := false, disk_free_bytes := 104857600,
      capture_result := some 0, roi_result := some 1,
      save_raises := false, drive_success := true }
    "d_t.jpg" "t" initial_backlog
    (by norm_num [check_disk_space, free_mb, MIN_FREE_DISK_MB])
    (by rfl) (by rfl)).1 rfl
  simpa using h.1

/-! ## C10 — disk-check failure never blocks capture -/

/-- C10: if the free-space query raises, `_check_disk_space` returns
`True` and the cycle proceeds to the capture step; the capture step is
skipped exactly when the measurement succeeded and was strictly below
the 50 MB floor. -/
theorem c10_disk_check (env : CycleEnv) (fp ts : String)
    (b : BDeque BacklogEntry) :
    (env.disk_raises = true →
       check_disk_space env.disk_raises env.disk_free_bytes = true ∧
       (process_cycle env fp ts b).capture_attempted = true) ∧
    ((process_cycle env fp ts b).capture_attempted = false ↔
       env.disk_raises = false ∧
       free_mb env.disk_free_bytes < MIN_FREE_DISK_MB) := by
  constructor
  · intro hr
    have hcheck : check_disk_space env.disk_raises env.disk_free_bytes = true := by
      simp [check_disk_space, hr]
    refine ⟨hcheck, ?_⟩
    cases henv : env.capture_result <;>
      (simp [process_cycle, hcheck, henv]; try (split_ifs <;> rfl))
  · cases hr : env.disk_raises <;>
      by_cases hf : free_mb env.disk_free_bytes < MIN_FREE_DISK_MB <;>
        cases henv : env.capture_result <;>
          simp [process_cycle, check_disk_space, hr, hf, henv] <;>
            split_ifs <;> simp

/-- Witness for C10: a raising disk check with an otherwise failing
cycle still reaches the capture step. -/
theorem c10_disk_check_witness :
    (process_cycle
        { disk_raises := true, disk_free_bytes := 0,
          capture_result := none, roi_result := none,
          save_raises := false, drive_success := false }
        "d_t.jpg" "t" initial_backlog).capture_attempted = true :=
  ((c10_disk_check
      { disk_raises := true, disk_free_bytes := 0,
        capture_result := none, roi_result := none,
        save_raises := false, drive_success := false }
      "d_t.jpg" "t" initial_backlog).1 rfl).2

/-! ## C3 — retention after pruning -/

/-- C3 counterexample: with two files (newest first) `["a", "b"]`,
`keep_count = 1` and the old file `"b"` protected by the backlog,
pruning keeps both files, so the remaining count is 2, not
`max(K, |protected|) = 1` — even though `"b"` existed before the
call. -/
theorem c3_counterexample :
    (cleanup_old_images ["a", "b"] ["b"] 1).length ≠ max 1 1 ∧
    "b" ∈ (["a", "b"] : List String) := by
  constructor
  · decide
  · decide

/-- C3 amended: after pruning, every protected path that was present
remains present, and the number of remaining files is
`min(n, K)` plus the number of protected files beyond the newest `K`
(not `max(K, |protected|)`). -/
theorem c3_retention (images backlog_files : List String) (K : ℕ) :
    (∀ p, p ∈ images → backlog_files.contains p = true →
       p ∈ cleanup_old_images images backlog_files K) ∧
    (cleanup_old_images images backlog_files K).length =
      min images.length K +
        ((images.drop K).filter (fun p => backlog_files.contains p)).length := by
  unfold cleanup_old_images
  by_cases h : K < images.length
  · simp only [if_pos h]
    constructor
    · intro p hp hprot
      rw [← List.take_append_drop K images] at hp
      rcases List.mem_append.mp hp with h1 | h2
      · exact List.mem_append.mpr (Or.inl h1)
      · exact List.mem_append.mpr
          (Or.inr (List.mem_filter.mpr ⟨h2, by simpa using hprot⟩))
    · simp [List.length_append, List.length_take, Nat.min_comm]
  · simp only [if_neg h]
    have hle : images.length ≤ K := Nat.le_of_not_lt h
    constructor
    · intro p hp _
      exact hp
    · rw [List.drop_eq_nil_of_le hle]
      simp [Nat.min_eq_left hle]

/-- Witness for C3 amended: the protected old file survives pruning. -/
theorem c3_retention_witness :
    "b" ∈ cleanup_old_images ["a", "b"] ["b"] 1 :=
  (c3_retention ["a", "b"] ["b"] 1).1 "b" (by decide) (by decide)

/-! ## C8 — bounded backlog -/

/-- `BDeque.push` leaves the capacity unchanged. -/
theorem BDeque.push_maxlen {α : Type} (b : BDeque α) (a : α) :
    (b.push a).maxlen = b.maxlen := by
  unfold BDeque.push
  split_ifs <;> rfl

/-- Folding `BDeque.push` leaves the capacity unchanged. -/
theorem BDeque.foldl_push_maxlen {α : Type} (l : List α) (b : BDeque α) :
    (List.foldl BDeque.push b l).maxlen = b.maxlen := by
  induction l generalizing b with
  | nil => rfl
  | cons x xs ih => rw [List.foldl_cons, ih, BDeque.push_maxlen]

/-- `retry_backlog` leaves the capacity unchanged. -/
theorem retry_backlog_maxlen (b : BDeque BacklogEntry)
    (fe uo : BacklogEntry → Bool) :
    (retry_backlog b fe uo).maxlen = b.maxlen := by
  unfold retry_backlog
  rw [BDeque.foldl_push_maxlen]

/-- `process_cycle` leaves the backlog capacity unchanged. -/
theorem process_cycle_maxlen (env : CycleEnv) (fp ts : String)
    (b : BDeque BacklogEntry) :
    (process_cycle env fp ts b).backlog.maxlen = b.maxlen := by
  rcases env with ⟨dr, db, cr, rr, sr, ds⟩
  cases cr <;> unfold process_cycle <;> dsimp only <;>
    split_ifs <;> first | rfl | rw [BDeque.push_maxlen]

/-- One orchestrator operation preserves well-formedness and capacity. -/
theorem apply_op_wf (b : BDeque BacklogEntry) (op : BacklogOp) (h : b.wf) :
    (apply_op b op).wf ∧ (apply_op b op).maxlen = b.maxlen := by
  cases op with
  | enqueue e => exact ⟨BDeque.push_wf b e h, BDeque.push_maxlen b e⟩
  | drain fe uo => exact ⟨retry_backlog_wf b fe uo, retry_backlog_maxlen b fe uo⟩
  | cycle env fp ts =>
    exact ⟨process_cycle_wf env fp ts b h, process_cycle_maxlen env fp ts b⟩

/-- C8: the backlog never exceeds `MAX_BACKLOG_SIZE = 20`: the bound is
preserved by the enqueue on a failed delivery, by `_retry_backlog`, and
by a whole `process_cycle`; inserting into a full backlog evicts the
oldest entry while keeping the length at capacity; and any sequence of
orchestrator operations starting from the initial backlog stays within
the bound. -/
theorem c8_backlog_bounded (b : BDeque BacklogEntry) (hwf : b.wf)
    (e : BacklogEntry) (fe uo : BacklogEntry → Bool)
    (env : CycleEnv) (fp ts : String) (ops : List BacklogOp) :
    (b.push e).wf ∧
    (retry_backlog b fe uo).wf ∧
    (process_cycle env fp ts b).backlog.wf ∧
    (b.items.length = b.maxlen → 0 < b.maxlen →
       (b.push e).items = b.items.tail ++ [e] ∧
       (b.push e).items.length = b.maxlen) ∧
    (List.foldl apply_op initial_backlog ops).items.length ≤ MAX_BACKLOG_SIZE := by
  refine ⟨BDeque.push_wf b e hwf, retry_backlog_wf b fe uo,
    process_cycle_wf env fp ts b hwf, ?_, ?_⟩
  · intro hfull hpos
    have hpush : (b.push e).items = b.items.tail ++ [e] := by
      unfold BDeque.push
      rw [if_neg (by omega), if_pos (by omega)]
    refine ⟨hpush, ?_⟩
    rw [hpush]
    have ht : b.items.tail.length = b.items.length - 1 := List.length_tail b.items
    simp only [List.length_append, List.length_cons, List.length_nil, ht]
    omega
  · have hmain : ∀ (l : List BacklogOp) (c : BDeque BacklogEntry),
        c.wf → (List.foldl apply_op c l).wf ∧
          (List.foldl apply_op c l).maxlen = c.maxlen := by
      intro l
      induction l with
      | nil => intro c hc; exact ⟨hc, rfl⟩
      | cons op rest ih =>
        intro c hc
        obtain ⟨h1, h2⟩ := apply_op_wf c op hc
        obtain ⟨h3, h4⟩ := ih (apply_op c op) h1
        exact ⟨h3, by rw [List.foldl_cons] at *; rw [h4, h2]⟩
    obtain ⟨h1, h2⟩ := hmain ops initial_backlog
      (by simp [BDeque.wf, initial_backlog])
    have := h1
    unfold BDeque.wf at this
    rw [h2] at this
    simpa [initial_backlog] using this

/-- Witness for C8 at a concrete full backlog and an op sequence. -/
theorem c8_backlog_bounded_witness :
    (List.foldl apply_op initial_backlog
        (List.replicate 25 (BacklogOp.enqueue
          { filepath := "f.jpg", aruco_detected := false,
            retries := 0, timestamp := "t" }))).items.length
      ≤ MAX_BACKLOG_SIZE :=
  (c8_backlog_bounded initial_backlog (by simp [BDeque.wf, initial_backlog])
    { filepath := "f.jpg", aruco_detected := false,
      retries := 0, timestamp := "t" }
    (fun _ => true) (fun _ => false)
    { disk_raises := false, disk_free_bytes := 0, capture_result := none,
      roi_result := none, save_raises := false, drive_success := false }
    "f.jpg" "t"
    (List.replicate 25 (BacklogOp.enqueue
      { filepath := "f.jpg", aruco_detected := false,
        retries := 0, timestamp := "t" }))).2.2.2.2

/-! ## C6 — indicator line forced LOW -/

/-- Every attempt, successful or raising at any step, leaves the line
LOW: a successful attempt ends with `_led_off` (step 5) and a raising
attempt runs `_led_off` in its `except` handler. -/
theorem run_attempt_low (s : GpioState) (r : Option ℕ) :
    (run_attempt s r).1.line = Line.low := by
  cases r with
  | none => simp [run_attempt, run_steps, step_effect]
  | some k => rfl

/-- The attempt loop started from a LOW line returns with a LOW line. -/
theorem capture_attempts_low (env : ℕ → Option ℕ) (n : ℕ) :
    ∀ (s : GpioState) (start : ℕ), s.line = Line.low →
      (capture_attempts s env start n).1.line = Line.low := by
  induction n with
  | zero => intro s start h; simpa [capture_attempts] using h
  | succ m ih =>
    intro s start h
    unfold capture_attempts
    dsimp only
    split_ifs with hs
    · exact run_attempt_low s (env start)
    · exact ih _ _ (run_attempt_low s (env start))

/-- C6: if the line is LOW when `capture_image` is called (as `_init_gpio`
guarantees on the first call and every return re-establishes), it is
still LOW after `_init_gpio`, i.e. before the first attempt begins, and
LOW again when `capture_image` returns; moreover whenever at least one
attempt runs, the call returns with the line LOW regardless of the
entry state. -/
theorem c6_led_low (s : GpioState) (env : ℕ → Option ℕ) (n : ℕ) :
    (s.line = Line.low →
       (init_gpio s).line = Line.low ∧
       (capture_image s n env).1.line = Line.low) ∧
    (1 ≤ n → (capture_image s n env).1.line = Line.low) := by
  have hinit : s.line = Line.low → (init_gpio s).line = Line.low := by
    intro h
    unfold init_gpio
    split_ifs <;> simp [h]
  constructor
  · intro h
    exact ⟨hinit h, capture_attempts_low env n (init_gpio s) 0 (hinit h)⟩
  · intro hn
    cases n with
    | zero => omega
    | succ m =>
      unfold capture_image capture_attempts
      dsimp only
      split_ifs with hs
      · exact run_attempt_low _ _
      · exact capture_attempts_low env m _ _ (run_attempt_low _ _)

/-- Witness for C6: two attempts, the first raising at the backend
step, starting from the pristine GPIO state. -/
theorem c6_led_low_witness :
    (capture_image { line := Line.low, initialized := false } 2
        (fun i => if i = 0 then some 2 else none)).1.line = Line.low :=
  ((c6_led_low { line := Line.low, initialized := false }
      (fun i => if i = 0 then some 2 else none) 2).1 rfl).2

/-! ## C5 — delivery agent fail-fast and retry schedule -/

/-- C5: an unconfigured delivery agent (sync tool/remote missing, or a
missing/invalid destination folder id) fails immediately with no
subprocess and no sleep; a configured agent whose attempts all fail
makes exactly `MAX_RETRIES = 3` transfer attempts, returns failure, and
sleeps `RETRY_DELAYS[0] = 2` s and `RETRY_DELAYS[1] = 5` s between the
consecutive attempts (the per-attempt-index delay list being
`[2, 5, 10]`). -/
theorem c5_uploader (env : UploadEnv) :
    (env.is_configured = false ∨ folder_id_bad env.folder_id = true →
       upload_with_verification env = (false, [])) ∧
    (env.is_configured = true → folder_id_bad env.folder_id = false →
       env.file_exists = true →
       (∀ i, i < RCLONE_MAX_RETRIES → env.outcomes i ≠ AttemptOutcome.ok) →
       (upload_with_verification env).1 = false ∧
       transfer_count (upload_with_verification env).2 = RCLONE_MAX_RETRIES ∧
       sleep_durations (upload_with_verification env).2 =
         [retry_delay 0, retry_delay 1] ∧
       RCLONE_RETRY_DELAYS = [2, 5, 10]) := by
  constructor
  · rintro (hc | hf)
    · simp [upload_with_verification, hc]
    · unfold upload_with_verification
      split_ifs <;> simp_all
  · intro hc hf hx hfail
    have h0 := hfail 0 (by norm_num [RCLONE_MAX_RETRIES])
    have h1 := hfail 1 (by norm_num [RCLONE_MAX_RETRIES])
    have h2 := hfail 2 (by norm_num [RCLONE_MAX_RETRIES])
    have hrew : upload_with_verification env =
        upload_loop env.outcomes 0 RCLONE_MAX_RETRIES := by
      simp [upload_with_verification, hc, hf, hx]
    rw [hrew]
    show _ ∧ _ ∧ _ ∧ _
    cases hh0 : env.outcomes 0 <;> cases hh1 : env.outcomes 1 <;>
      cases hh2 : env.outcomes 2 <;>
        simp_all [RCLONE_MAX_RETRIES, upload_loop, transfer_count,
          sleep_durations, retry_delay, RCLONE_RETRY_DELAYS]

/-- Witness for C5: a configured uploader whose three attempts all fail
at the transfer step sleeps 2 s and then 5 s. -/
theorem c5_uploader_witness :
    sleep_durations (upload_with_verification
        { is_configured := true, folder_id := "abc123", file_exists := true,
          outcomes := fun _ => AttemptOutcome.upload_fail }).2 =
      [retry_delay 0, retry_delay 1] :=
  (((c5_uploader
      { is_configured := true, folder_id := "abc123", file_exists := true,
        outcomes := fun _ => AttemptOutcome.upload_fail }).2
    rfl (by decide) rfl (fun i _ => by simp)).2.2).1

/-! ## C2 — status reporter rate limiting -/

/-- C2 counterexample: with `_last_update_time = 0`, a call at `t = 100`
whose first request takes 1 s and is rejected (the endpoint returns
"0") makes its two requests at `t = 100` and `t = 104`:
4 s apart, less than the 16 s minimum interval. -/
theorem c2_counterexample :
    (send_status ⟨100, 0⟩ (fun _ => ⟨1, TSOutcome.rejected⟩)).2.2
      = [100, 104] ∧
    (104 : ℚ) - 100 < TS_MIN_UPDATE_INTERVAL := by
  constructor
  · norm_num [send_status, ts_attempt, TS_MIN_UPDATE_INTERVAL, TS_RETRY_DELAY]
  · norm_num [TS_MIN_UPDATE_INTERVAL]

/-- C2 amended: the minimum inter-update interval is enforced only
between calls, relative to the recorded completion time of the last
request of a previous call that did not raise: the first request of
every `send_status` call starts at least `MIN_UPDATE_INTERVAL` after
`_last_update_time`, while a retry inside the same call starts only
`duration + RETRY_DELAY` (3 s) after the previous request's start. -/
theorem c2_rate_limit (s : TSState) (att : ℕ → TSAttempt) :
    (∀ t0, ((send_status s att).2.2).head? = some t0 →
       s.last_update + TS_MIN_UPDATE_INTERVAL ≤ t0) ∧
    (∀ t0 t1, (send_status s att).2.2 = [t0, t1] →
       t1 = t0 + (att 0).duration + TS_RETRY_DELAY) := by
  have hb : s.last_update + TS_MIN_UPDATE_INTERVAL ≤
      (if s.now - s.last_update < TS_MIN_UPDATE_INTERVAL
       then s.now + (TS_MIN_UPDATE_INTERVAL - (s.now - s.last_update))
       else s.now) := by
    split_ifs with hE
    · linarith
    · linarith [not_lt.mp hE]
  have hacc : (att 0).outcome = TSOutcome.accepted →
      (send_status s att).2.2 =
        [if s.now - s.last_update < TS_MIN_UPDATE_INTERVAL
         then s.now + (TS_MIN_UPDATE_INTERVAL - (s.now - s.last_update))
         else s.now] := by
    intro h0
    simp [send_status, ts_attempt, h0, apply_ite TSState.now]
  have hfail : (att 0).outcome ≠ TSOutcome.accepted →
      ∃ T, (send_status s att).2.2 = [T, T + (att 0).duration + TS_RETRY_DELAY] ∧
        T = (if s.now - s.last_update < TS_MIN_UPDATE_INTERVAL
             then s.now + (TS_MIN_UPDATE_INTERVAL - (s.now - s.last_update))
             else s.now) := by
    intro h0
    cases hh : (att 0).outcome <;> first
      | exact absurd hh h0
      | exact ⟨_, by cases hh1 : (att 1).outcome <;>
          simp [send_status, ts_attempt, hh, hh1, apply_ite TSState.now], rfl⟩
  constructor
  · intro t0 ht
    by_cases h0 : (att 0).outcome = TSOutcome.accepted
    · rw [hacc h0] at ht
      simp only [List.head?_cons, Option.some.injEq] at ht
      rw [← ht]
      exact hb
    · obtain ⟨T, hT, hTval⟩ := hfail h0
      rw [hT] at ht
      simp only [List.head?_cons, Option.some.injEq] at ht
      rw [← ht, hTval]
      exact hb
  · intro t0 t1 ht
    by_cases h0 : (att 0).outcome = TSOutcome.accepted
    · rw [hacc h0] at ht
      simp at ht
    · obtain ⟨T, hT, _⟩ := hfail h0
      rw [hT] at ht
      simp only [List.cons.injEq, and_true] at ht
      obtain ⟨h1, h2⟩ := ht
      rw [← h1, ← h2]

/-- Witness for C2 amended, at the counterexample call: the first
request starts 16 s after the recorded last update, and the retry
starts `1 + 3` s after the first request. -/
theorem c2_rate_limit_witness :
    (0 : ℚ) + TS_MIN_UPDATE_INTERVAL ≤ 100 ∧ (104 : ℚ) = 100 + 1 + TS_RETRY_DELAY := by
  have h := c2_rate_limit ⟨100, 0⟩ (fun _ => ⟨1, TSOutcome.rejected⟩)
  have hlist : (send_status ⟨100, 0⟩ (fun _ => ⟨1, TSOutcome.rejected⟩)).2.2
      = [100, 104] := by
    norm_num [send_status, ts_attempt, TS_MIN_UPDATE_INTERVAL, TS_RETRY_DELAY]
  exact ⟨h.1 100 (by rw [hlist]; rfl), by simpa using h.2 100 104 hlist⟩

/-! ## C9 — cycle scheduling -/

/-- C9 counterexample: with a 300 s interval and a cycle lasting 10 s
(shorter than the interval), the next cycle starts 310 s after the
previous one, not 300 s: the sleep is a fixed pause after the work, not
a wait until the next scheduled boundary, so drift accumulates. -/
theorem c9_counterexample :
    cycle_start 0 300 (fun _ => 10) 1 - cycle_start 0 300 (fun _ => 10) 0
      = 310 ∧
    (10 : ℚ) < 300 ∧ (310 : ℚ) ≠ 300 := by
  refine ⟨?_, by norm_num, by norm_num⟩
  norm_num [cycle_start]

/-- C9 amended: consecutive cycle start times are exactly
`cycle duration + interval` apart, and after `n` cycles the start time
has drifted from the fixed-interval schedule by the accumulated sum of
all previous cycle durations. -/
theorem c9_schedule (t0 interval : ℚ) (dur : ℕ → ℚ) (n : ℕ) :
    cycle_start t0 interval dur (n + 1) - cycle_start t0 interval dur n
      = dur n + interval ∧
    cycle_start t0 interval dur n
      = t0 + n * interval + ∑ i ∈ Finset.range n, dur i := by
  constructor
  · rw [cycle_start]
    ring
  · induction n with
    | zero => simp [cycle_start]
    | succ m ih =>
      rw [cycle_start, ih, Finset.sum_range_succ]
      push_cast
      ring

/-! ## C4 — extract is total -/

/-- A marker id is found exactly when some marker in the list carries
it. -/
theorem find_marker_isSome_iff (ms : List Marker) (i : ℕ) :
    (find_marker ms i).isSome = true ↔ i ∈ ms.map Marker.mid := by
  induction ms with
  | nil => simp [find_marker]
  | cons m rest ih =>
    simp only [find_marker, List.map_cons, List.mem_cons]
    cases h : find_marker rest i with
    | some c =>
      have hr : i ∈ rest.map Marker.mid := ih.mp (by rw [h]; rfl)
      simp [hr]
    | none =>
      have hr : i ∉ rest.map Marker.mid := by
        intro hm
        have := ih.mpr hm
        rw [h] at this
        simp at this
      split_ifs with hm
      · simp [hm]
      · have hne : ¬ i = m.mid := fun hh => hm hh.symm
        simp [hr, hne]

/-- A marker list containing the four required ids has at least four
markers. -/
theorem four_ids_length (ms : List Marker)
    (h0 : 0 ∈ ms.map Marker.mid) (h1 : 1 ∈ ms.map Marker.mid)
    (h2 : 2 ∈ ms.map Marker.mid) (h3 : 3 ∈ ms.map Marker.mid) :
    4 ≤ ms.length := by
  have hsub : ({0, 1, 2, 3} : Finset ℕ) ⊆ (ms.map Marker.mid).toFinset := by
    intro x hx
    rw [List.mem_toFinset]
    fin_cases hx <;> assumption
  have hcard := Finset.card_le_card hsub
  have hc4 : ({0, 1, 2, 3} : Finset ℕ).card = 4 := by decide
  have hlen := (ms.map Marker.mid).toFinset_card_le
  rw [List.length_map] at hlen
  omega

/-- C4: `extract_roi` is total — it returns exactly one of
`Extracted`/`Fallback`; a raising detection library yields `Fallback`
exactly like markers-not-found; and whenever the detection returns
markers covering all four required identities (0, 1, 2, 3) on a valid
image, the result is `Extracted`. -/
theorem c4_extract_total (img : Option InputImage) (det : Detection) :
    ((∃ g, extract_roi img det = ExtractionOutcome.Extracted g) ∨
       extract_roi img det = ExtractionOutcome.Fallback) ∧
    (det = Detection.raised →
       extract_roi img det = ExtractionOutcome.Fallback) ∧
    (∀ im ms, img = some im → im.size ≠ 0 → det = Detection.found ms →
       0 ∈ ms.map Marker.mid → 1 ∈ ms.map Marker.mid →
       2 ∈ ms.map Marker.mid → 3 ∈ ms.map Marker.mid →
       ∃ g, extract_roi img det = ExtractionOutcome.Extracted g) := by
  refine ⟨?_, ?_, ?_⟩
  · cases h : extract_roi img det with
    | Extracted g => exact Or.inl ⟨g, rfl⟩
    | Fallback => exact Or.inr rfl
  · rintro rfl
    cases img with
    | none => rfl
    | some im => by_cases h : im.size = 0 <;> simp [extract_roi, h]
  · rintro im ms rfl hsz rfl h0 h1 h2 h3
    have hlen : ¬ ms.length < 4 := by
      have := four_ids_length ms h0 h1 h2 h3
      omega
    obtain ⟨tl, htl⟩ := Option.isSome_iff_exists.mp
      ((find_marker_isSome_iff ms 1).mpr h1)
    obtain ⟨tr, htr⟩ := Option.isSome_iff_exists.mp
      ((find_marker_isSome_iff ms 3).mpr h3)
    obtain ⟨br, hbr⟩ := Option.isSome_iff_exists.mp
      ((find_marker_isSome_iff ms 0).mpr h0)
    obtain ⟨bl, hbl⟩ := Option.isSome_iff_exists.mp
      ((find_marker_isSome_iff ms 2).mpr h2)
    refine ⟨roi_geometry tl tr br bl, ?_⟩
    simp [extract_roi, hsz, hlen, htl, htr, hbr, hbl]

/-- Witness for C4: a 1280x960 image with one marker per required id. -/
theorem c4_extract_total_witness :
    ∃ g, extract_roi (some ⟨1228800⟩)
        (Detection.found
          [⟨1, [(0, 0), (2, 0), (2, 2), (0, 2)]⟩,
           ⟨3, [(98, 0), (102, 0), (102, 2), (98, 2)]⟩,
           ⟨0, [(98, 98), (102, 98), (102, 102), (98, 102)]⟩,
           ⟨2, [(0, 98), (2, 98), (2, 102), (0, 102)]⟩])
      = ExtractionOutcome.Extracted g :=
  (c4_extract_total (some ⟨1228800⟩)
    (Detection.found
      [⟨1, [(0, 0), (2, 0), (2, 2), (0, 2)]⟩,
       ⟨3, [(98, 0), (102, 0), (102, 2), (98, 2)]⟩,
       ⟨0, [(98, 98), (102, 98), (102, 102), (98, 102)]⟩,
       ⟨2, [(0, 98), (2, 98), (2, 102), (0, 102)]⟩])).2.2
    ⟨1228800⟩ _ rfl (by norm_num) rfl (by decide) (by decide) (by decide)
    (by decide)

/-! ## C7 — warp destination points vs. symmetric padding -/

/-- On non-negative input, `int()` truncation agrees with the floor. -/
theorem pyInt_eq_floor (q : ℚ) (h : 0 ≤ q) : pyInt q = ⌊q⌋ := by
  unfold pyInt
  rw [if_neg (not_lt.mpr h), Rat.floor_def']
  exact Rat.floor_def.symm

theorem pyInt_zero : pyInt 0 = 0 := by
  rw [pyInt_eq_floor 0 le_rfl]
  exact Int.floor_zero

theorem pyInt_hundred : pyInt 100 = 100 := by
  rw [pyInt_eq_floor 100 (by norm_num)]
  norm_num

/-- Centroid of the four corners around (0, 0). -/
theorem centroid_around_origin :
    centroid [(-2, -2), (2, -2), (2, 2), (-2, 2)] = ((0 : ℤ), (0 : ℤ)) := by
  unfold centroid
  norm_num [pyInt_zero]

/-- Centroid of the four corners around (100, 0). -/
theorem centroid_around_tr :
    centroid [(98, -2), (102, -2), (102, 2), (98, 2)] = ((100 : ℤ), (0 : ℤ)) := by
  unfold centroid
  norm_num [pyInt_zero, pyInt_hundred]

/-- Centroid of the four corners around (100, 100). -/
theorem centroid_around_br :
    centroid [(98, 98), (102, 98), (102, 102), (98, 102)]
      = ((100 : ℤ), (100 : ℤ)) := by
  unfold centroid
  norm_num [pyInt_hundred]

/-- Centroid of the four corners around (0, 100). -/
theorem centroid_around_bl :
    centroid [(-2, 98), (2, 98), (2, 102), (-2, 102)]
      = ((0 : ℤ), (100 : ℤ)) := by
  unfold centroid
  norm_num [pyInt_zero, pyInt_hundred]

/-- 10% of a 100-pixel box is a 10-pixel padding. -/
theorem padding_of_hundred :
    pyInt (((100 : ℤ) : ℚ) * padding_percent) = 10 := by
  have h1 : ((100 : ℤ) : ℚ) * padding_percent = 10 := by
    norm_num [padding_percent, ROI_PADDING_PERCENT]
  rw [h1, pyInt_eq_floor 10 (by norm_num)]
  norm_num

/-- The geometry computed at centroids (0,0), (100,0), (100,100),
(0,100): destination points with NEGATIVE top-left coordinates. -/
theorem roi_geometry_at_square :
    roi_geometry (0, 0) (100, 0) (100, 100) (0, 100) =
      { pts_dst := [(-10, -10), (110, -10), (110, 110), (-10, 110)],
        output_width := 120, output_height := 120 } := by
  unfold roi_geometry
  dsimp only
  rw [show max4 (0 : ℤ) 100 100 0 - min4 (0 : ℤ) 100 100 0 = 100 by decide,
      show max4 (0 : ℤ) 0 100 100 - min4 (0 : ℤ) 0 100 100 = 100 by decide,
      padding_of_hundred]
  norm_num

/-- C7: at four markers whose centroids sit at (0,0), (100,0),
(100,100), (0,100), the code maps the top-left centroid to
(-10, -10) — outside the 120x120 warp output — while placing centroids
symmetrically inset by the padding would require the destination
corners `spec_inset_pts_dst`, which differ.  The image content is
shifted by (padding, padding): there is no top/left padding and the
top-left marker area is cropped out, contradicting the documented
"10% padding around markers". -/
theorem c7_padding_code_bug :
    extract_roi (some ⟨1228800⟩)
        (Detection.found
          [⟨1, [(-2, -2), (2, -2), (2, 2), (-2, 2)]⟩,
           ⟨3, [(98, -2), (102, -2), (102, 2), (98, 2)]⟩,
           ⟨0, [(98, 98), (102, 98), (102, 102), (98, 102)]⟩,
           ⟨2, [(-2, 98), (2, 98), (2, 102), (-2, 102)]⟩])
      = ExtractionOutcome.Extracted
          { pts_dst := [(-10, -10), (110, -10), (110, 110), (-10, 110)],
            output_width := 120, output_height := 120 } ∧
    spec_inset_pts_dst 100 100 10 10
      = [(10, 10), (110, 10), (110, 110), (10, 110)] ∧
    (roi_geometry (0, 0) (100, 0) (100, 100) (0, 100)).pts_dst
      ≠ spec_inset_pts_dst 100 100 10 10 := by
  have hf1 : find_marker
      [⟨1, [(-2, -2), (2, -2), (2, 2), (-2, 2)]⟩,
       ⟨3, [(98, -2), (102, -2), (102, 2), (98, 2)]⟩,
       ⟨0, [(98, 98), (102, 98), (102, 102), (98, 102)]⟩,
       ⟨2, [(-2, 98), (2, 98), (2, 102), (-2, 102)]⟩] 1 = some (0, 0) := by
    simp [find_marker, centroid_around_origin]
  have hf3 : find_marker
      [⟨1, [(-2, -2), (2, -2), (2, 2), (-2, 2)]⟩,
       ⟨3, [(98, -2), (102, -2), (102, 2), (98, 2)]⟩,
       ⟨0, [(98, 98), (102, 98), (102, 102), (98, 102)]⟩,
       ⟨2, [(-2, 98), (2, 98), (2, 102), (-2, 102)]⟩] 3 = some (100, 0) := by
    simp [find_marker, centroid_around_tr]
  have hf0 : find_marker
      [⟨1, [(-2, -2), (2, -2), (2, 2), (-2, 2)]⟩,
       ⟨3, [(98, -2), (102, -2), (102, 2), (98, 2)]⟩,
       ⟨0, [(98, 98), (102, 98), (102, 102), (98, 102)]⟩,
       ⟨2, [(-2, 98), (2, 98), (2, 102), (-2, 102)]⟩] 0 = some (100, 100) := by
    simp [find_marker, centroid_around_br]
  have hf2 : find_marker
      [⟨1, [(-2, -2), (2, -2), (2, 2), (-2, 2)]⟩,
       ⟨3, [(98, -2), (102, -2), (102, 2), (98, 2)]⟩,
       ⟨0, [(98, 98), (102, 98), (102, 102), (98, 102)]⟩,
       ⟨2, [(-2, 98), (2, 98), (2, 102), (-2, 102)]⟩] 2 = some (0, 100) := by
    simp [find_marker, centroid_around_bl]
  refine ⟨?_, by decide, ?_⟩
  · simp [extract_roi, hf1, hf3, hf0, hf2]
    exact roi_geometry_at_square
  · rw [roi_geometry_at_square]
    decide

end EvaraFlow
